import Mathlib

/-!
Shallow embedding of the RustaceanMarket cart/order core
(src/server/src/api/carts.rs, orders.rs, products.rs).

The Postgres database is modelled as an explicit `DB` record of row lists.
`sqlx::types::Decimal` (exact fixed-point decimal arithmetic) is modelled by
`ℚ`; `Uuid` primary keys are modelled by `Nat` drawn from per-table counters
carried in `DB` (Postgres generates them, so each insert uses a fresh id).
`chrono` timestamps are dropped: no claim depends on them.

Each sqlx call that can fail returns `Except SqlxError`.  The `create_order`
transaction (`pool.begin()` ... `tx.commit()`, with rollback-on-drop) is
modelled by `create_order_tx`, a function that threads a tentative `DB`
through the statement sequence and returns either the committed state or an
error; the wrapper `Order.create_order` keeps the caller's original `DB`
whenever the body errors, which is exactly sqlx's rollback-on-drop semantics.
Storage-level failures of individual statements (connectivity, constraint
violations) are injected through a `faults : List Nat` parameter listing the
statement indices at which the storage layer fails.
-/

namespace RustaceanMarket

/-- Order status enumeration from orders.rs (`order_status` SQL enum). -/
inductive OrderStatus where
  | Pending
  | Confirmed
  | Shipped
deriving Repr, DecidableEq

/-- Errors surfaced by the sqlx layer as used in this repository:
`RowNotFound` (cart/order lookup misses), `Protocol "Cart is empty"` (the
EmptyCart error raised by create_order), `ColumnDecode` (a NULL in a column
the query expects to be non-null), and `Storage` (an injected storage-level
failure of an individual statement). -/
inductive SqlxError where
  | RowNotFound
  | Protocol (msg : String)
  | ColumnDecode
  | Storage
deriving Repr, DecidableEq

/-- A row of `carts` (struct Cart in carts.rs): `user_id` is nullable. -/
structure Cart where
  cart_id : Nat
  user_id : Option Nat
deriving Repr, DecidableEq

/-- A row of `cart_items` (struct CartItem in carts.rs). `quantity` is kept
nullable, as in the Rust struct (`quantity: Option<i32>`), whose merge code
explicitly handles the NULL case with `unwrap_or(0)`. -/
structure CartItem where
  cart_item_id : Nat
  cart_id : Nat
  product_id : Nat
  quantity : Option Int
deriving Repr, DecidableEq

/-- A row of `products` (struct Product in products.rs), fields a claim can
see: the catalog price is the only one checkout reads. -/
structure Product where
  product_id : Nat
  name : String
  description : Option String
  price : ℚ
  stock_quantity : Int
deriving Repr, DecidableEq

/-- A row of `orders` (struct Order in orders.rs), without timestamps. -/
structure Order where
  order_id : Nat
  user_id : Nat
  status : OrderStatus
  shipping_address : String
  total_amount : ℚ
deriving Repr, DecidableEq

/-- A row of `order_details` (the INSERT in orders.rs create_order). -/
structure OrderDetail where
  order_id : Nat
  product_id : Nat
  quantity : Int
  price_per_unit : ℚ
deriving Repr, DecidableEq

/-- The persistent database state: one list per table, plus the id
generators Postgres would provide. -/
structure DB where
  carts : List Cart
  cart_items : List CartItem
  products : List Product
  orders : List Order
  order_details : List OrderDetail
  next_cart_id : Nat
  next_cart_item_id : Nat
  next_order_id : Nat
deriving Repr, DecidableEq

/-- The empty database (fresh schema). -/
def emptyDB : DB := ⟨[], [], [], [], [], 0, 0, 0⟩

/-- Request body of the product create/edit endpoints (struct ProductBody). -/
structure ProductBody where
  name : String
  description : Option String
  price : ℚ
  stock_quantity : Int
deriving Repr, DecidableEq

/-- products.rs `Product::edit_product_by_id`: `UPDATE products SET name,
description, price, stock_quantity WHERE product_id = $5 RETURNING *`,
`fetch_optional` — returns the updated row when the id exists, `none`
otherwise.  Touches only the `products` table. -/
def Product.edit_product_by_id (db : DB) (product_id : Nat) (body : ProductBody) :
    DB × Option Product :=
  match db.products.find? (fun p => p.product_id = product_id) with
  | none => (db, none)
  | some p =>
      let p' : Product := ⟨p.product_id, body.name, body.description,
        body.price, body.stock_quantity⟩
      let products' := db.products.map (fun r =>
        if r.product_id = product_id then
          ⟨r.product_id, body.name, body.description, body.price,
            body.stock_quantity⟩ else r)
      ({ db with products := products' }, some p')

/-- products.rs `Product::create_product`: plain INSERT RETURNING. -/
def Product.create_product (db : DB) (product_id : Nat) (body : ProductBody) :
    DB × Product :=
  let p : Product := ⟨product_id, body.name, body.description, body.price,
    body.stock_quantity⟩
  ({ db with products := db.products ++ [p] }, p)

/-- products.rs `Product::delete_product`: `DELETE FROM products WHERE
product_id = $1`. -/
def Product.delete_product (db : DB) (product_id : Nat) : DB :=
  { db with products := db.products.filter (fun p => ¬ p.product_id = product_id) }

/-- carts.rs `Cart::get_or_create_cart`: `SELECT * FROM carts WHERE user_id
= $1 LIMIT 1`; if none, `INSERT INTO carts (user_id) VALUES ($1) RETURNING *`. -/
def Cart.get_or_create_cart (db : DB) (user_id : Nat) : DB × Cart :=
  match db.carts.find? (fun c => c.user_id = some user_id) with
  | some cart => (db, cart)
  | none =>
      let cart : Cart := ⟨db.next_cart_id, some user_id⟩
      ({ db with carts := db.carts ++ [cart],
                 next_cart_id := db.next_cart_id + 1 }, cart)

/-- The `SELECT * FROM cart_items WHERE cart_id = $1 AND product_id = $2`
`fetch_optional` at the head of `Cart::add_cart_item`. -/
def findCartItem (db : DB) (cart_id product_id : Nat) : Option CartItem :=
  db.cart_items.find? (fun r => r.cart_id = cart_id ∧ r.product_id = product_id)

/-- carts.rs `Cart::add_cart_item`: if a row for (cart_id, product_id)
exists, `UPDATE cart_items SET quantity = old.unwrap_or(0) + quantity WHERE
cart_item_id = ...` (merge); otherwise `INSERT ... RETURNING *` with a fresh
id.  Returns the written row, as the Rust does via RETURNING. -/
def Cart.add_cart_item (db : DB) (cart_id product_id : Nat) (quantity : Int) :
    DB × CartItem :=
  match findCartItem db cart_id product_id with
  | some ci =>
      let q' : Int := ci.quantity.getD 0 + quantity
      let items' := db.cart_items.map (fun r =>
        if r.cart_item_id = ci.cart_item_id then
          { r with quantity := some q' } else r)
      ({ db with cart_items := items' }, { ci with quantity := some q' })
  | none =>
      let ci : CartItem := ⟨db.next_cart_item_id, cart_id, product_id, some quantity⟩
      ({ db with cart_items := db.cart_items ++ [ci],
                 next_cart_item_id := db.next_cart_item_id + 1 }, ci)

/-- The status-string decoding in orders.rs `Order::update_order_status`:
a Rust `match` on the string with `_ => OrderStatus::Pending`. -/
def parse_status (s : String) : OrderStatus :=
  if s = "Pending" then .Pending
  else if s = "Confirmed" then .Confirmed
  else if s = "Shipped" then .Shipped
  else .Pending

/-- orders.rs `Order::update_order_status`: `SELECT order_id FROM orders
WHERE order_id = $1` `fetch_optional`; `RowNotFound` if absent, else
`UPDATE orders SET status = $1 WHERE order_id = $2` with the decoded status. -/
def Order.update_order_status (db : DB) (order_id : Nat) (order_status : String) :
    DB × Except SqlxError Unit :=
  match db.orders.find? (fun o => o.order_id = order_id) with
  | none => (db, .error .RowNotFound)
  | some _ =>
      let orders' := db.orders.map (fun o =>
        if o.order_id = order_id then
          { o with status := parse_status order_status } else o)
      ({ db with orders := orders' }, .ok ())

/-- One row of the `SELECT ci.*, p.price FROM cart_items ci JOIN products p
ON ci.product_id = p.product_id WHERE cart_id = $1` join in create_order,
before column decoding. -/
structure JoinedRow where
  product_id : Nat
  quantity : Option Int
  price : ℚ
deriving Repr, DecidableEq

/-- A decoded cart line as create_order consumes it (quantity proven
non-null by the sqlx decode). -/
structure CartLine where
  product_id : Nat
  quantity : Int
  price : ℚ
deriving Repr, DecidableEq

/-- The inner join of cart_items with products for one cart: cart items
whose product id has no catalog row are dropped by the INNER JOIN. -/
def joined_cart_items (db : DB) (cart_id : Nat) : List JoinedRow :=
  db.cart_items.filterMap (fun ci =>
    if ci.cart_id = cart_id then
      (db.products.find? (fun p => p.product_id = ci.product_id)).map
        (fun p => ⟨ci.product_id, ci.quantity, p.price⟩)
    else none)

/-- sqlx's row decoding during `fetch_all`: every `quantity` must be
non-NULL (orders.rs consumes it as `i32`); a NULL makes the fetch fail. -/
def decode_items : List JoinedRow → Option (List CartLine)
  | [] => some []
  | r :: rs =>
      match r.quantity, decode_items rs with
      | some q, some rest => some (⟨r.product_id, q, r.price⟩ :: rest)
      | _, _ => none

/-- The total in create_order: `items.iter().map(|item| item.price *
Decimal::from(item.quantity)).sum()`, exact decimal arithmetic. -/
def order_total (items : List CartLine) : ℚ :=
  (items.map (fun it => it.price * (it.quantity : ℚ))).sum

/-- The OrderDetail row create_order inserts for one cart line. -/
def detail_row (order_id : Nat) (it : CartLine) : OrderDetail :=
  ⟨order_id, it.product_id, it.quantity, it.price⟩

/-- The per-line `INSERT INTO order_details` loop of create_order; statement
index `base + i` for line `i` may be faulted. -/
def insert_details (faults : List Nat) (base : Nat) (order_id : Nat) :
    List CartLine → DB → Except SqlxError DB
  | [], db => .ok db
  | it :: rest, db =>
      if base ∈ faults then .error .Storage
      else insert_details faults (base + 1) order_id rest
        { db with order_details := db.order_details ++ [detail_row order_id it] }

/-- The Order row create_order inserts: fresh id, `status = Pending`, the
computed exact total, the supplied shipping address. -/
def new_order (db : DB) (user_id : Nat) (shipping_address : String)
    (items : List CartLine) : Order :=
  ⟨db.next_order_id, user_id, .Pending, shipping_address, order_total items⟩

/-- State after the `INSERT INTO orders ... RETURNING *` statement. -/
def with_order (db : DB) (o : Order) : DB :=
  { db with orders := db.orders ++ [o], next_order_id := db.next_order_id + 1 }

/-- The body of orders.rs `Order::create_order` between `pool.begin()` and
`tx.commit()`, threading the tentative transaction state.  Statement fault
indices: 0 = cart SELECT, 1 = item join SELECT, 2 = order INSERT,
3+i = i-th order_details INSERT, 3+n = cart_items DELETE, 4+n = COMMIT. -/
def create_order_tx (faults : List Nat) (db : DB) (shipping_address : String)
    (user_id : Nat) : Except SqlxError (DB × Order) :=
  if 0 ∈ faults then .error .Storage else
  match db.carts.find? (fun c => c.user_id = some user_id) with
  | none => .error .RowNotFound
  | some cart =>
    if 1 ∈ faults then .error .Storage else
    match decode_items (joined_cart_items db cart.cart_id) with
    | none => .error .ColumnDecode
    | some items =>
      if items.isEmpty then .error (.Protocol "Cart is empty") else
      if 2 ∈ faults then .error .Storage else
      match insert_details faults 3 db.next_order_id items
        (with_order db (new_order db user_id shipping_address items)) with
      | .error e => .error e
      | .ok db₂ =>
        if 3 + items.length ∈ faults then .error .Storage else
        if 4 + items.length ∈ faults then .error .Storage else
        .ok ({ db₂ with cart_items :=
            db₂.cart_items.filter (fun r => ¬ r.cart_id = cart.cart_id) },
          new_order db user_id shipping_address items)

/-- orders.rs `Order::create_order` as the caller observes it: the
transaction commits and the new state becomes persistent, or any failure
rolls the whole unit back (sqlx drops the uncommitted transaction) and the
persistent state is the original `db`. -/
def Order.create_order (faults : List Nat) (db : DB) (shipping_address : String)
    (user_id : Nat) : DB × Except SqlxError Order :=
  match create_order_tx faults db shipping_address user_id with
  | .ok (db', o) => (db', .ok o)
  | .error e => (db, .error e)

/-- Total of a set of OrderDetail rows, `quantity * price_per_unit` in
exact decimal arithmetic — the sum invariant I1 speaks about. -/
def details_total (l : List OrderDetail) : ℚ :=
  (l.map (fun d => (d.quantity : ℚ) * d.price_per_unit)).sum

instance {ε α : Type} [DecidableEq ε] [DecidableEq α] :
    DecidableEq (Except ε α) := fun a b =>
  match a, b with
  | .ok x, .ok y =>
      if h : x = y then .isTrue (by rw [h]) else
        .isFalse (by intro hc; cases hc; exact h rfl)
  | .error x, .error y =>
      if h : x = y then .isTrue (by rw [h]) else
        .isFalse (by intro hc; cases hc; exact h rfl)
  | .ok _, .error _ => .isFalse (by intro hc; cases hc)
  | .error _, .ok _ => .isFalse (by intro hc; cases hc)

/- ### Helper lemmas -/

theorem find?_map_of_pred_comm {α : Type} (p : α → Bool) (f : α → α)
    (h : ∀ a, p (f a) = p a) :
    ∀ l : List α, (l.map f).find? p = (l.find? p).map f := by
  intro l
  induction l with
  | nil => rfl
  | cons a l ih =>
      simp only [List.map_cons, List.find?_cons, h a]
      cases hpa : p a <;> simp [ih]

theorem insert_details_ok (faults : List Nat) (oid : Nat) :
    ∀ (items : List CartLine) (base : Nat) (db db₂ : DB),
      insert_details faults base oid items db = .ok db₂ →
      db₂ = { db with order_details :=
        db.order_details ++ items.map (detail_row oid) } := by
  intro items
  induction items with
  | nil =>
      intro base db db₂ h
      simp only [insert_details] at h
      cases h
      simp
  | cons it rest ih =>
      intro base db db₂ h
      simp only [insert_details] at h
      split at h
      · cases h
      · have h₂ := ih (base + 1) _ db₂ h
        rw [h₂]
        simp [List.append_assoc]

theorem create_order_tx_ok (faults : List Nat) (db db' : DB)
    (a : String) (u : Nat) (o : Order)
    (h : create_order_tx faults db a u = .ok (db', o)) :
    ∃ cart items,
      db.carts.find? (fun c => c.user_id = some u) = some cart ∧
      decode_items (joined_cart_items db cart.cart_id) = some items ∧
      items ≠ [] ∧
      o = ⟨db.next_order_id, u, .Pending, a, order_total items⟩ ∧
      db'.carts = db.carts ∧
      db'.products = db.products ∧
      db'.orders = db.orders ++ [o] ∧
      db'.order_details = db.order_details ++
        items.map (detail_row db.next_order_id) ∧
      db'.cart_items = db.cart_items.filter
        (fun r => ¬ r.cart_id = cart.cart_id) ∧
      db'.next_order_id = db.next_order_id + 1 ∧
      db'.next_cart_item_id = db.next_cart_item_id ∧
      db'.next_cart_id = db.next_cart_id := by
  unfold create_order_tx at h
  split at h
  · cases h
  · split at h
    · cases h
    · next cart hc =>
      split at h
      · cases h
      · split at h
        · cases h
        · next items hd =>
          split at h
          · cases h
          · next hne =>
            split at h
            · cases h
            · split at h
              · cases h
              · next db₂ hins =>
                split at h
                · cases h
                · split at h
                  · cases h
                  · have hdb₂ := insert_details_ok faults db.next_order_id items 3 _ db₂ hins
                    cases h
                    refine ⟨cart, items, hc, hd, ?_, rfl, ?_, ?_, ?_, ?_, ?_, ?_, ?_, ?_⟩
                    · intro hnil
                      rw [hnil] at hne
                      simp at hne
                    all_goals subst hdb₂
                    all_goals simp [with_order, new_order]

theorem create_order_error_rollback (faults : List Nat) (db db₂ : DB)
    (a : String) (u : Nat) (e : SqlxError)
    (h : Order.create_order faults db a u = (db₂, .error e)) : db₂ = db := by
  unfold Order.create_order at h
  split at h
  · exact absurd (congrArg Prod.snd h) (by simp)
  · exact (congrArg Prod.fst h).symm

theorem create_order_empty_cart (db : DB) (cart : Cart) (a : String) (u : Nat)
    (hc : db.carts.find? (fun c => c.user_id = some u) = some cart)
    (he : db.cart_items.filter (fun r => r.cart_id = cart.cart_id) = []) :
    Order.create_order [] db a u = (db, .error (.Protocol "Cart is empty")) := by
  have hjoin : joined_cart_items db cart.cart_id = [] := by
    unfold joined_cart_items
    rw [List.filterMap_eq_nil_iff]
    intro ci hci
    have hni := List.filter_eq_nil_iff.mp he ci hci
    simp only [decide_eq_true_eq] at hni
    simp [hni]
  unfold Order.create_order create_order_tx
  simp [hc, hjoin, decode_items]

theorem edit_product_frame (db : DB) (pid : Nat) (b : ProductBody) :
    (Product.edit_product_by_id db pid b).1.carts = db.carts ∧
    (Product.edit_product_by_id db pid b).1.cart_items = db.cart_items ∧
    (Product.edit_product_by_id db pid b).1.orders = db.orders ∧
    (Product.edit_product_by_id db pid b).1.order_details = db.order_details := by
  unfold Product.edit_product_by_id
  split <;> simp

theorem create_product_frame (db : DB) (pid : Nat) (b : ProductBody) :
    (Product.create_product db pid b).1.carts = db.carts ∧
    (Product.create_product db pid b).1.cart_items = db.cart_items ∧
    (Product.create_product db pid b).1.orders = db.orders ∧
    (Product.create_product db pid b).1.order_details = db.order_details := by
  unfold Product.create_product
  simp

theorem delete_product_frame (db : DB) (pid : Nat) :
    (Product.delete_product db pid).carts = db.carts ∧
    (Product.delete_product db pid).cart_items = db.cart_items ∧
    (Product.delete_product db pid).orders = db.orders ∧
    (Product.delete_product db pid).order_details = db.order_details := by
  unfold Product.delete_product
  simp

theorem get_or_create_cart_frame (db : DB) (u : Nat) :
    (Cart.get_or_create_cart db u).1.cart_items = db.cart_items ∧
    (Cart.get_or_create_cart db u).1.orders = db.orders ∧
    (Cart.get_or_create_cart db u).1.order_details = db.order_details := by
  unfold Cart.get_or_create_cart
  split <;> simp

theorem update_status_frame (db : DB) (oid : Nat) (s : String) :
    (Order.update_order_status db oid s).1.carts = db.carts ∧
    (Order.update_order_status db oid s).1.cart_items = db.cart_items ∧
    (Order.update_order_status db oid s).1.order_details = db.order_details ∧
    (Order.update_order_status db oid s).1.orders.map
        (fun o => (o.order_id, o.total_amount)) =
      db.orders.map (fun o => (o.order_id, o.total_amount)) := by
  unfold Order.update_order_status
  split
  · simp
  · refine ⟨by simp, by simp, by simp, ?_⟩
    simp only [List.map_map]
    apply List.map_congr_left
    intro x _
    by_cases hx : x.order_id = oid <;> simp [hx]

theorem create_order_ok_tx (faults : List Nat) (db db' : DB) (a : String)
    (u : Nat) (o : Order)
    (h : Order.create_order faults db a u = (db', .ok o)) :
    create_order_tx faults db a u = .ok (db', o) := by
  unfold Order.create_order at h
  split at h
  · next db₃ o₃ heq =>
      have h₁ := congrArg Prod.fst h
      have h₂ := congrArg Prod.snd h
      simp only at h₁ h₂
      cases h₂
      cases h₁
      exact heq
  · exact absurd (congrArg Prod.snd h) (by simp)

theorem add_cart_item_merge (db : DB) (c p : Nat) (q : Int) (ci : CartItem)
    (hfind : findCartItem db c p = some ci) :
    (Cart.add_cart_item db c p q).2 =
      { ci with quantity := some (ci.quantity.getD 0 + q) } ∧
    (Cart.add_cart_item db c p q).1.cart_items.length =
      db.cart_items.length ∧
    findCartItem (Cart.add_cart_item db c p q).1 c p =
      some { ci with quantity := some (ci.quantity.getD 0 + q) } := by
  unfold Cart.add_cart_item
  rw [hfind]
  refine ⟨rfl, by simp, ?_⟩
  show (db.cart_items.map _).find? _ = _
  rw [find?_map_of_pred_comm _ _ ?_ db.cart_items]
  · unfold findCartItem at hfind
    rw [hfind]
    simp
  · intro r
    by_cases hr : r.cart_item_id = ci.cart_item_id <;> simp [hr]

theorem add_cart_item_merge_items (db : DB) (c p : Nat) (q : Int)
    (ci : CartItem) (hfind : findCartItem db c p = some ci) :
    (Cart.add_cart_item db c p q).1.cart_items =
      db.cart_items.map (fun r =>
        if r.cart_item_id = ci.cart_item_id then
          { r with quantity := some (ci.quantity.getD 0 + q) } else r) := by
  unfold Cart.add_cart_item
  rw [hfind]

theorem add_cart_item_insert (db : DB) (c p : Nat) (q : Int)
    (hnone : findCartItem db c p = none) :
    (Cart.add_cart_item db c p q).1.cart_items =
      db.cart_items ++ [⟨db.next_cart_item_id, c, p, some q⟩] ∧
    (Cart.add_cart_item db c p q).2 =
      ⟨db.next_cart_item_id, c, p, some q⟩ := by
  unfold Cart.add_cart_item
  rw [hnone]
  exact ⟨rfl, rfl⟩

/- ### Sample databases used by the witnesses -/

/-- One user (id 7) with cart 0 holding 5 units of product 1 priced 9.99. -/
def wdb : DB :=
  ⟨[⟨0, some 7⟩], [⟨0, 0, 1, some 5⟩], [⟨1, "X", none, 999/100, 10⟩],
   [], [], 1, 1, 0⟩

/-- The state `wdb` reaches after a successful checkout for user 7. -/
def wdb₂ : DB :=
  ⟨[⟨0, some 7⟩], [], [⟨1, "X", none, 999/100, 10⟩],
   [⟨0, 7, .Pending, "addr", 999/20⟩], [⟨0, 1, 5, 999/100⟩], 1, 1, 1⟩

/-- The order that checkout on `wdb` creates: 5 × 9.99 = 49.95. -/
def worder : Order := ⟨0, 7, .Pending, "addr", 999/20⟩

/-- A user (id 7) whose cart 0 exists but holds no items. -/
def wdbE : DB := ⟨[⟨0, some 7⟩], [], [], [], [], 1, 0, 0⟩

/- ### The claims -/

/-- C2: checkout is atomic — whenever `create_order` fails, at any step
(cart lookup, item read and decode, order insert, any order-detail insert,
cart-item deletion, commit; storage failures are injected via `faults`),
the persistent state is exactly the state before the call: no Order row, no
OrderDetail row, and no CartItem deletion takes effect. -/
theorem c2_checkout_atomic (faults : List Nat) (db db₂ : DB) (a : String)
    (u : Nat) (e : SqlxError)
    (h : Order.create_order faults db a u = (db₂, .error e)) : db₂ = db :=
  create_order_error_rollback faults db db₂ a u e h

/-- Witness for C2: with a storage fault injected at the first order-detail
INSERT (statement index 3), checkout of `wdb` fails and leaves the state
untouched, although the Order insert had tentatively succeeded. -/
theorem c2_checkout_atomic_witness :
    Order.create_order [3] wdb "addr" 7 = (wdb, .error .Storage) ∧ wdb = wdb := by
  have hrun : Order.create_order [3] wdb "addr" 7 = (wdb, .error .Storage) := by
    simp [Order.create_order, create_order_tx, wdb, joined_cart_items,
      decode_items, insert_details, findCartItem]
  exact ⟨hrun, c2_checkout_atomic [3] wdb wdb "addr" 7 .Storage hrun⟩

/-- C3: for a user whose cart exists but holds zero CartItem rows, checkout
always fails with the EmptyCart error (`Protocol "Cart is empty"`) and
inserts no Order and no OrderDetail row. -/
theorem c3_empty_cart_rejected (db : DB) (cart : Cart) (a : String) (u : Nat)
    (hc : db.carts.find? (fun c => c.user_id = some u) = some cart)
    (he : db.cart_items.filter (fun r => r.cart_id = cart.cart_id) = []) :
    Order.create_order [] db a u = (db, .error (.Protocol "Cart is empty")) ∧
    (Order.create_order [] db a u).1.orders = db.orders ∧
    (Order.create_order [] db a u).1.order_details = db.order_details := by
  have h := create_order_empty_cart db cart a u hc he
  exact ⟨h, by rw [h], by rw [h]⟩

/-- Witness for C3: user 7's cart in `wdbE` exists and is empty; checkout
returns EmptyCart and the state is unchanged. -/
theorem c3_empty_cart_rejected_witness :
    Order.create_order [] wdbE "a" 7 = (wdbE, .error (.Protocol "Cart is empty")) :=
  (c3_empty_cart_rejected wdbE ⟨0, some 7⟩ "a" 7 (by decide) (by decide)).1

/-- C4: after a successful checkout, the originating cart (the first cart
row of the user) has zero CartItem rows while its cart row still exists
(the carts table is untouched), and a second checkout on the same cart with
no intervening add_item fails with EmptyCart, changing nothing. -/
theorem c4_cart_cleared_then_empty (db db' : DB) (a a' : String) (u : Nat)
    (o : Order) (h : Order.create_order [] db a u = (db', .ok o)) :
    ∃ cart, db.carts.find? (fun c => c.user_id = some u) = some cart ∧
      db'.carts = db.carts ∧
      db'.cart_items.filter (fun r => r.cart_id = cart.cart_id) = [] ∧
      Order.create_order [] db' a' u =
        (db', .error (.Protocol "Cart is empty")) := by
  have htx := create_order_ok_tx [] db db' a u o h
  obtain ⟨cart, items, hc, hd, hne, ho, hcarts, hprods, horders, hdetails,
    hitems, hno, hnci, hncc⟩ := create_order_tx_ok [] db db' a u o htx
  have hfe : db'.cart_items.filter (fun r => r.cart_id = cart.cart_id) = [] := by
    rw [hitems, List.filter_eq_nil_iff]
    intro r hr
    have hm := List.mem_filter.mp hr
    simp only [decide_eq_true_eq, decide_not, Bool.not_eq_eq_eq_not,
      Bool.not_true, decide_eq_false_iff_not] at hm ⊢
    exact hm.2
  exact ⟨cart, hc, hcarts, hfe,
    create_order_empty_cart db' cart a' u (by rw [hcarts]; exact hc) hfe⟩

/-- Witness for C4: checkout on `wdb` clears cart 0, keeps the cart row,
and a second checkout returns EmptyCart without changing the state. -/
theorem c4_cart_cleared_then_empty_witness :
    ∃ cart, wdb.carts.find? (fun c => c.user_id = some 7) = some cart ∧
      wdb₂.carts = wdb.carts ∧
      wdb₂.cart_items.filter (fun r => r.cart_id = cart.cart_id) = [] ∧
      Order.create_order [] wdb₂ "again" 7 =
        (wdb₂, .error (.Protocol "Cart is empty")) :=
  c4_cart_cleared_then_empty wdb wdb₂ "addr" "again" 7 worder (by
    simp [Order.create_order, create_order_tx, wdb, wdb₂, worder,
      joined_cart_items, decode_items, insert_details, with_order, new_order,
      order_total, detail_row]
    norm_num)

/-- C1: for every successful checkout, the created Order's total_amount
equals the exact decimal sum of quantity * price_per_unit over the
OrderDetail rows the checkout inserted (all rows carrying the new order id,
given that the id is fresh), and the equality persists: later product edits
leave orders and order_details unchanged, and status updates leave
order_details and every order's (id, total_amount) unchanged. -/
theorem c1_total_invariant (db db' : DB) (a : String) (u : Nat) (o : Order)
    (hfresh : ∀ d ∈ db.order_details, d.order_id < db.next_order_id)
    (h : Order.create_order [] db a u = (db', .ok o)) :
    o.total_amount = details_total
      (db'.order_details.filter (fun d => d.order_id = o.order_id)) ∧
    (∀ pid b,
      (Product.edit_product_by_id db' pid b).1.order_details =
        db'.order_details ∧
      (Product.edit_product_by_id db' pid b).1.orders = db'.orders) ∧
    (∀ oid s,
      (Order.update_order_status db' oid s).1.order_details =
        db'.order_details ∧
      (Order.update_order_status db' oid s).1.orders.map
          (fun r => (r.order_id, r.total_amount)) =
        db'.orders.map (fun r => (r.order_id, r.total_amount))) := by
  have htx := create_order_ok_tx [] db db' a u o h
  obtain ⟨cart, items, hc, hd, hne, ho, hcarts, hprods, horders, hdetails,
    hitems, hno, hnci, hncc⟩ := create_order_tx_ok [] db db' a u o htx
  refine ⟨?_,
    fun pid b => ⟨(edit_product_frame db' pid b).2.2.2,
      (edit_product_frame db' pid b).2.2.1⟩,
    fun oid s => ⟨(update_status_frame db' oid s).2.2.1,
      (update_status_frame db' oid s).2.2.2⟩⟩
  subst ho
  rw [hdetails, List.filter_append]
  have h₁ : db.order_details.filter
      (fun d => d.order_id = db.next_order_id) = [] := by
    rw [List.filter_eq_nil_iff]
    intro d hd
    have := hfresh d hd
    simp only [decide_eq_true_eq]
    omega
  have h₂ : (items.map (detail_row db.next_order_id)).filter
      (fun d => d.order_id = db.next_order_id) =
      items.map (detail_row db.next_order_id) := by
    rw [List.filter_eq_self]
    intro d hd
    obtain ⟨it, _, rfl⟩ := List.mem_map.mp hd
    simp [detail_row]
  simp only [h₁, h₂, List.nil_append]
  simp only [details_total, order_total, List.map_map]
  apply congrArg List.sum
  apply List.map_congr_left
  intro it _
  simp [detail_row, mul_comm]

/-- Witness for C1: the checkout of `wdb` (5 units at 9.99) creates an
order with total 49.95 matching its single OrderDetail row. -/
theorem c1_total_invariant_witness :
    worder.total_amount = details_total
      (wdb₂.order_details.filter (fun d => d.order_id = worder.order_id)) :=
  (c1_total_invariant wdb wdb₂ "addr" 7 worder (by simp [wdb]) (by
    simp [Order.create_order, create_order_tx, wdb, wdb₂, worder,
      joined_cart_items, decode_items, insert_details, with_order, new_order,
      order_total, detail_row]
    norm_num)).1

/-- C5: add_item merges instead of duplicating. If a CartItem row for
(cart_id, product_id) exists (the fetch_optional finds one), its quantity
becomes its old quantity plus the supplied one, the row count is unchanged
and the row is found updated in place; otherwise exactly the one new row
with the supplied quantity is appended. In particular, adding quantities
`a` then `b` for a product absent from the cart leaves exactly one matching
CartItem, with quantity `a + b`. -/
theorem c5_add_item_merges (db : DB) (c p : Nat) (q a b : Int) :
    (∀ ci, findCartItem db c p = some ci →
      (Cart.add_cart_item db c p q).1.cart_items.length =
        db.cart_items.length ∧
      (Cart.add_cart_item db c p q).2 =
        { ci with quantity := some (ci.quantity.getD 0 + q) } ∧
      findCartItem (Cart.add_cart_item db c p q).1 c p =
        some { ci with quantity := some (ci.quantity.getD 0 + q) }) ∧
    (findCartItem db c p = none →
      (Cart.add_cart_item db c p q).1.cart_items =
        db.cart_items ++ [⟨db.next_cart_item_id, c, p, some q⟩]) ∧
    (findCartItem db c p = none →
      ((Cart.add_cart_item (Cart.add_cart_item db c p a).1 c p b).1.cart_items.filter
          (fun r => r.cart_id = c ∧ r.product_id = p)).map
        (fun r => r.quantity) = [some (a + b)]) := by
  refine ⟨?_, fun hnone => (add_cart_item_insert db c p q hnone).1, ?_⟩
  · intro ci hfind
    have h := add_cart_item_merge db c p q ci hfind
    exact ⟨h.2.1, h.1, h.2.2⟩
  · intro hnone
    have h₁ := (add_cart_item_insert db c p a hnone).1
    have hrow : findCartItem (Cart.add_cart_item db c p a).1 c p =
        some ⟨db.next_cart_item_id, c, p, some a⟩ := by
      unfold findCartItem at hnone ⊢
      rw [h₁, List.find?_append, hnone]
      simp
    have hmap := add_cart_item_merge_items (Cart.add_cart_item db c p a).1
      c p b _ hrow
    rw [hmap]
    simp only [Option.getD_some]
    rw [List.filter_map]
    have hcong : (Cart.add_cart_item db c p a).1.cart_items.filter
        ((fun r => decide (r.cart_id = c ∧ r.product_id = p)) ∘
          (fun r => if r.cart_item_id = db.next_cart_item_id then
            { r with quantity := some (a + b) } else r)) =
        (Cart.add_cart_item db c p a).1.cart_items.filter
          (fun r => decide (r.cart_id = c ∧ r.product_id = p)) := by
      apply List.filter_congr
      intro x _
      by_cases hx : x.cart_item_id = db.next_cart_item_id <;> simp [hx]
    rw [hcong, h₁, List.filter_append]
    have h₂ : db.cart_items.filter
        (fun r => decide (r.cart_id = c ∧ r.product_id = p)) = [] := by
      rw [List.filter_eq_nil_iff]
      intro r hr
      have := List.find?_eq_none.mp hnone r hr
      simpa using this
    rw [h₂]
    simp

/-- Witness for C5: cart 0 in `wdbE` has no row for product 1; adding
quantities 2 then 3 leaves exactly one matching row, with quantity 5. -/
theorem c5_add_item_merges_witness :
    ((Cart.add_cart_item (Cart.add_cart_item wdbE 0 1 2).1 0 1 3).1.cart_items.filter
        (fun r => r.cart_id = 0 ∧ r.product_id = 1)).map
      (fun r => r.quantity) = [some 5] :=
  (c5_add_item_merges wdbE 0 1 0 2 3).2.2 (by decide)

/-- C10: when the stored CartItem row for (cart_id, product_id) has a NULL
quantity, the merge branch treats NULL as 0 (`unwrap_or(0)`), so the update
succeeds and the stored quantity becomes exactly the supplied quantity. -/
theorem c10_null_quantity_merge (db : DB) (c p : Nat) (q : Int)
    (ci : CartItem) (hfind : findCartItem db c p = some ci)
    (hnull : ci.quantity = none) :
    (Cart.add_cart_item db c p q).2 = { ci with quantity := some q } ∧
    findCartItem (Cart.add_cart_item db c p q).1 c p =
      some { ci with quantity := some q } ∧
    (Cart.add_cart_item db c p q).1.cart_items.length =
      db.cart_items.length := by
  have h := add_cart_item_merge db c p q ci hfind
  rw [hnull] at h
  simp only [Option.getD_none, zero_add] at h
  exact ⟨h.1, h.2.2, h.2.1⟩

/-- A cart whose single CartItem row for (cart 0, product 1) has a NULL
stored quantity. -/
def wdbN : DB := ⟨[⟨0, some 7⟩], [⟨0, 0, 1, none⟩], [], [], [], 1, 1, 0⟩

/-- Witness for C10: merging quantity 4 onto the NULL-quantity row of
`wdbN` stores exactly 4 and does not fail. -/
theorem c10_null_quantity_merge_witness :
    (Cart.add_cart_item wdbN 0 1 4).2 = ⟨0, 0, 1, some 4⟩ ∧
    findCartItem (Cart.add_cart_item wdbN 0 1 4).1 0 1 =
      some ⟨0, 0, 1, some 4⟩ :=
  ⟨(c10_null_quantity_merge wdbN 0 1 4 ⟨0, 0, 1, none⟩ (by decide) rfl).1,
   (c10_null_quantity_merge wdbN 0 1 4 ⟨0, 0, 1, none⟩ (by decide) rfl).2.1⟩

/-- C6: price-snapshot stability. Editing a product (which does set the
catalog price to the new body price when the product exists) leaves the
orders table and the order_details table — hence every existing order's
total_amount and every price_per_unit snapshot — completely unchanged. -/
theorem c6_price_snapshot_stability (db : DB) (pid : Nat) (b : ProductBody) :
    (Product.edit_product_by_id db pid b).1.order_details =
      db.order_details ∧
    (Product.edit_product_by_id db pid b).1.orders = db.orders ∧
    (∀ db₂ p₀, Product.edit_product_by_id db pid b = (db₂, some p₀) →
      p₀.price = b.price) := by
  refine ⟨(edit_product_frame db pid b).2.2.2,
    (edit_product_frame db pid b).2.2.1, ?_⟩
  intro db₂ p₀ h
  unfold Product.edit_product_by_id at h
  split at h
  · exact absurd (congrArg Prod.snd h) (by simp)
  · have h₂ := congrArg Prod.snd h
    simp only [Option.some.injEq] at h₂
    rw [← h₂]

/-- Witness for C6: editing product 1 of the post-checkout state `wdb₂` to
price 5 changes the catalog price but neither orders nor order_details. -/
theorem c6_price_snapshot_stability_witness :
    (Product.edit_product_by_id wdb₂ 1 ⟨"X", none, 5, 10⟩).1.order_details =
      wdb₂.order_details ∧
    (Product.edit_product_by_id wdb₂ 1 ⟨"X", none, 5, 10⟩).2.map
        (fun p => p.price) = some 5 := by
  refine ⟨(c6_price_snapshot_stability wdb₂ 1 ⟨"X", none, 5, 10⟩).1, ?_⟩
  simp [Product.edit_product_by_id, wdb₂, List.find?]

/-- C8: update_status fails with RowNotFound exactly when no order has the
given id; when one exists it succeeds unconditionally (no forward-only
transition check) and sets every row with that id to the status named by
the input string, where "Pending", "Confirmed", "Shipped" map to their
states and every other string maps to Pending. -/
theorem c8_update_status_semantics (db : DB) (oid : Nat) (s : String) :
    ((Order.update_order_status db oid s).2 = .error .RowNotFound ↔
      ¬ ∃ o ∈ db.orders, o.order_id = oid) ∧
    ((∃ o ∈ db.orders, o.order_id = oid) →
      (Order.update_order_status db oid s).2 = .ok () ∧
      ∀ o ∈ (Order.update_order_status db oid s).1.orders,
        o.order_id = oid → o.status = parse_status s) ∧
    parse_status "Pending" = .Pending ∧
    parse_status "Confirmed" = .Confirmed ∧
    parse_status "Shipped" = .Shipped ∧
    (∀ s', s' ≠ "Pending" → s' ≠ "Confirmed" → s' ≠ "Shipped" →
      parse_status s' = .Pending) := by
  refine ⟨?_, ?_, rfl, rfl, rfl, ?_⟩
  · unfold Order.update_order_status
    split
    · next hn =>
        simp only [List.find?_eq_none] at hn
        constructor
        · intro _ ⟨o, ho, hoid⟩
          have hno := hn o ho
          simp only [decide_eq_true_eq] at hno
          exact hno hoid
        · intro _
          rfl
    · next o₀ hf =>
        constructor
        · intro hcontra
          cases hcontra
        · intro hne
          exact absurd ⟨o₀, List.mem_of_find?_eq_some hf,
            by simpa using List.find?_some hf⟩ hne
  · intro ⟨o, ho, hoid⟩
    unfold Order.update_order_status
    split
    · next hn =>
        rw [List.find?_eq_none] at hn
        exact absurd hoid (by simpa using hn o ho)
    · refine ⟨rfl, ?_⟩
      intro o' ho' hoid'
      simp only at ho'
      obtain ⟨x, hx, hfx⟩ := List.mem_map.mp ho'
      by_cases hxo : x.order_id = oid
      · rw [← hfx]
        simp [hxo]
      · rw [← hfx] at hoid'
        simp [hxo] at hoid'
  · intro s' h1 h2 h3
    simp [parse_status, h1, h2, h3]

/-- A ledger with a single Pending order (id 0) for user 7. -/
def wodb : DB := ⟨[], [], [], [⟨0, 7, .Pending, "addr", 25⟩], [], 0, 0, 1⟩

/-- Witness for C8: updating order 0 of `wodb` to "Shipped" succeeds, and
updating the nonexistent order 1 fails with RowNotFound. -/
theorem c8_update_status_semantics_witness :
    (Order.update_order_status wodb 0 "Shipped").2 = .ok () ∧
    (Order.update_order_status wodb 1 "Shipped").2 = .error .RowNotFound := by
  constructor
  · exact ((c8_update_status_semantics wodb 0 "Shipped").2.1
      ⟨⟨0, 7, .Pending, "addr", 25⟩, by norm_num [wodb], rfl⟩).1
  · exact (c8_update_status_semantics wodb 1 "Shipped").1.mpr (by
      norm_num [wodb])

/-- States reachable from the fresh schema through this repository's
operations, under the spec's caller contract for add_item (§4.2: "Quantity
must be a positive integer supplied by the caller").  Checkout runs may
fail at any injected storage fault. -/
inductive Reachable : DB → Prop where
  | empty : Reachable emptyDB
  | create_product (db : DB) (pid : Nat) (b : ProductBody) :
      Reachable db → Reachable (Product.create_product db pid b).1
  | edit_product (db : DB) (pid : Nat) (b : ProductBody) :
      Reachable db → Reachable (Product.edit_product_by_id db pid b).1
  | delete_product (db : DB) (pid : Nat) :
      Reachable db → Reachable (Product.delete_product db pid)
  | get_or_create_cart (db : DB) (u : Nat) :
      Reachable db → Reachable (Cart.get_or_create_cart db u).1
  | add_cart_item (db : DB) (c p : Nat) (q : Int) :
      Reachable db → 1 ≤ q → Reachable (Cart.add_cart_item db c p q).1
  | create_order (faults : List Nat) (db : DB) (a : String) (u : Nat) :
      Reachable db → Reachable (Order.create_order faults db a u).1
  | update_order_status (db : DB) (oid : Nat) (s : String) :
      Reachable db → Reachable (Order.update_order_status db oid s).1

/-- C7 (invariant I4): in every state reachable through the operations —
with add_item invoked under its documented positive-quantity caller
contract — every stored CartItem quantity is non-NULL and at least 1; in
particular the merge branch never produces a non-positive quantity from
positive inputs. -/
theorem c7_cart_quantity_positive (db : DB) (h : Reachable db) :
    ∀ r ∈ db.cart_items, ∃ q, r.quantity = some q ∧ 1 ≤ q := by
  induction h with
  | empty =>
      intro r hr
      cases hr
  | create_product db pid b _ ih =>
      rw [(create_product_frame db pid b).2.1]
      exact ih
  | edit_product db pid b _ ih =>
      rw [(edit_product_frame db pid b).2.1]
      exact ih
  | delete_product db pid _ ih =>
      rw [(delete_product_frame db pid).2.1]
      exact ih
  | get_or_create_cart db u _ ih =>
      rw [(get_or_create_cart_frame db u).1]
      exact ih
  | add_cart_item db c p q _ hq ih =>
      cases hfind : findCartItem db c p with
      | some ci =>
          rw [add_cart_item_merge_items db c p q ci hfind]
          intro r hr
          obtain ⟨x, hx, rfl⟩ := List.mem_map.mp hr
          by_cases hxi : x.cart_item_id = ci.cart_item_id
          · obtain ⟨q₀, hq₀, hq₀pos⟩ :=
              ih ci (List.mem_of_find?_eq_some hfind)
            refine ⟨ci.quantity.getD 0 + q, by simp [hxi], ?_⟩
            rw [hq₀, Option.getD_some]
            omega
          · simp only [hxi, if_false]
            exact ih x hx
      | none =>
          rw [(add_cart_item_insert db c p q hfind).1]
          intro r hr
          rcases List.mem_append.mp hr with h₁ | h₂
          · exact ih r h₁
          · rw [List.mem_singleton] at h₂
            subst h₂
            exact ⟨q, rfl, hq⟩
  | create_order faults db a u _ ih =>
      intro r hr
      rcases hres : Order.create_order faults db a u with ⟨db', res⟩
      rw [hres] at hr
      simp only at hr
      cases res with
      | error e =>
          rw [create_order_error_rollback faults db db' a u e hres] at hr
          exact ih r hr
      | ok o =>
          have htx := create_order_ok_tx faults db db' a u o hres
          obtain ⟨cart, items, _, _, _, _, _, _, _, _, hitems, _, _, _⟩ :=
            create_order_tx_ok faults db db' a u o htx
          rw [hitems] at hr
          exact ih r (List.mem_of_mem_filter hr)
  | update_order_status db oid s _ ih =>
      rw [(update_status_frame db oid s).2.1]
      exact ih

/-- Witness for C7: after one positive add to the empty database, the
single stored row has quantity 2 ≥ 1. -/
theorem c7_cart_quantity_positive_witness :
    ∃ q, (⟨0, 0, 1, some 2⟩ : CartItem).quantity = some q ∧ 1 ≤ q :=
  c7_cart_quantity_positive (Cart.add_cart_item emptyDB 0 1 2).1
    (Reachable.add_cart_item emptyDB 0 1 2 Reachable.empty (by decide))
    ⟨0, 0, 1, some 2⟩ (by decide)

end RustaceanMarket
